import Mathlib

/-!
Shallow embedding of the severance Entitlement & Recommendation Engine
(src/lib/calculations.ts, src/lib/tax-rates.ts, src/lib/lawyer-cost-analysis.ts,
src/lib/decision-guide.ts).

Conventions of the embedding:
- JavaScript numbers are modelled as rationals (ℚ); the decimal literals of the
  source (0.6, 1.2, 4.33, 0.13, ...) are modelled as the exact rationals they
  denote.
- Math.round is modelled by jsRound (round half toward positive infinity,
  which is the ECMAScript Math.round), Math.floor by jsFloor; both return an
  integer-valued rational, mirroring JS where every result is again a number.
- TypeScript string literal union types are erased at runtime; functions whose
  source signature takes a province string are modelled over String, so that
  unrecognized codes (reachable at runtime) are representable.
- undefined-able values are modelled as Option; JS truthiness tests on numbers
  compare against 0.
- Presentation-only string fields (option names, descriptions, guidance text)
  follow the source text; the locale-aware currency formatting of
  Intl.NumberFormat is modelled by a plain dollar rendering of the rounded
  amount, since no verified property inspects the formatted digits.
-/

/-- ECMAScript Math.round: round half toward positive infinity. -/
def jsRound (q : ℚ) : ℚ := ((⌊q + 1/2⌋ : ℤ) : ℚ)

/-- ECMAScript Math.floor. -/
def jsFloor (q : ℚ) : ℚ := ((⌊q⌋ : ℤ) : ℚ)

/-- ECMAScript Math.min on two numbers (agrees with the lattice min on ℚ;
spelled out so that it evaluates by kernel reduction). -/
def jsMin (a b : ℚ) : ℚ := if a ≤ b then a else b

/-- ECMAScript Math.max on two numbers (agrees with the lattice max on ℚ). -/
def jsMax (a b : ℚ) : ℚ := if a ≤ b then b else a

/-- ECMAScript Math.abs (agrees with the lattice absolute value on ℚ). -/
def jsAbs (q : ℚ) : ℚ := if q < 0 then -q else q

/-- AgeRange union type from src/lib/types.ts. -/
inductive AgeRange where
  | under30
  | range30to40
  | range41to50
  | range51to60
  | range60to70
  | range70plus
deriving DecidableEq

/-- JobPosition union type from src/lib/types.ts. -/
inductive JobPosition where
  | upperManagement
  | middleManagement
  | lowerManagement
  | salesperson
  | salesManager
  | professional
  | labourer
  | clerical
  | technical
  | supervisor
  | socialServices
deriving DecidableEq

/-- Position of an age bracket in the declared (ascending) order of the
AgeRange union; used to state what a "higher" bracket is. -/
def ageRank : AgeRange → ℕ
  | .under30 => 0
  | .range30to40 => 1
  | .range41to50 => 2
  | .range51to60 => 3
  | .range60to70 => 4
  | .range70plus => 5

/-- getAgeMultiplier from src/lib/calculations.ts. -/
def getAgeMultiplier : AgeRange → ℚ
  | .under30 => 0.8
  | .range30to40 => 1.0
  | .range41to50 => 1.2
  | .range51to60 => 1.4
  | .range60to70 => 1.6
  | .range70plus => 1.8

/-- getPositionMultiplier from src/lib/calculations.ts. -/
def getPositionMultiplier : JobPosition → ℚ
  | .upperManagement => 1.8
  | .middleManagement => 1.5
  | .lowerManagement => 1.3
  | .salesManager => 1.4
  | .professional => 1.2
  | .supervisor => 1.1
  | .technical => 1.0
  | .clerical => 0.9
  | .salesperson => 0.9
  | .labourer => 0.8
  | .socialServices => 1.0

/-- Result record of calculateCommonLawNotice. -/
structure CommonLawWeeks where
  minWeeks : ℚ
  maxWeeks : ℚ
deriving DecidableEq

/-- calculateCommonLawNotice from src/lib/calculations.ts. -/
def calculateCommonLawNotice (yearsOfService monthsOfService : ℚ)
    (ageRange : AgeRange) (jobPosition : JobPosition) : CommonLawWeeks :=
  let totalYears := yearsOfService + monthsOfService / 12
  let ageMultiplier := getAgeMultiplier ageRange
  let positionMultiplier := getPositionMultiplier jobPosition
  -- Base calculation: typically 1-2 months per year of service
  let baseMonths := jsMax 1 (jsMin 2 totalYears)
  let adjustedMonths := baseMonths * totalYears * ageMultiplier * positionMultiplier
  -- Minimum reasonable notice: 2-4 weeks for short service; maximum capped at 24 months
  let minMonths := jsMax 0.5 (jsMin (adjustedMonths * 0.6) 6)
  let maxMonths := jsMin (adjustedMonths * 1.2) 24
  { minWeeks := jsRound (minMonths * 4.33)
    maxWeeks := jsRound (maxMonths * 4.33) }

/-- getStatutoryNoticeWeeks from src/lib/calculations.ts. The switch over the
province string is modelled as an if-chain with the same branch values; the
source also computes an unused local totalMonths, omitted here. -/
def getStatutoryNoticeWeeks (province : String) (yearsOfService monthsOfService : ℚ) : ℚ :=
  let totalYears := yearsOfService + monthsOfService / 12
  if province = "ON" then jsMin (jsFloor totalYears) 8
  else if province = "BC" then jsMin (jsFloor totalYears) 8
  else if province = "AB" then jsMin (jsFloor totalYears) 8
  else if province = "SK" then jsMin (jsFloor totalYears) 8
  else if province = "MB" then jsMin (jsFloor totalYears) 8
  else if province = "NS" then jsMin (jsFloor totalYears) 8
  else if province = "NB" then jsMin (jsFloor totalYears) 4
  else if province = "NL" then jsMin (jsFloor totalYears) 8
  else if province = "PE" then jsMin (jsFloor totalYears) 4
  else if province = "NT" then jsMin (jsFloor totalYears) 8
  else if province = "YT" then jsMin (jsFloor totalYears) 8
  else if province = "NU" then jsMin (jsFloor totalYears) 8
  else if province = "QC" then jsMin (jsFloor totalYears) 8
  else if province = "Federal" then
    if totalYears < 1 then 0 else jsMin (2 + jsFloor (totalYears - 1)) 8
  else jsMin (jsFloor totalYears) 8

/-- getStatutorySeveranceWeeks from src/lib/calculations.ts. The JS truthiness
test on the optional employerPayroll (undefined and 0 are falsy) is modelled
explicitly. -/
def getStatutorySeveranceWeeks (province : String) (yearsOfService monthsOfService : ℚ)
    (employerPayroll : Option ℚ) : Option ℚ :=
  if province ≠ "ON" then none
  else
    let totalYears := yearsOfService + monthsOfService / 12
    match employerPayroll with
    | some payroll =>
        if payroll ≠ 0 ∧ 2500000 ≤ payroll ∧ 5 ≤ totalYears then
          some (jsMin (jsFloor totalYears) 26)
        else none
    | none => none

/-- CalculatorInput from src/lib/types.ts (province as runtime string). -/
structure CalculatorInput where
  province : String
  yearsOfService : ℚ
  monthsOfService : ℚ
  ageRange : AgeRange
  jobPosition : JobPosition
  annualSalary : ℚ
  isUnionized : Bool
  currentOffer : Option ℚ
  employerPayroll : Option ℚ
deriving DecidableEq

/-- weeks/amount pair used by SeveranceResult. -/
structure WeeksAmount where
  weeks : ℚ
  amount : ℚ
deriving DecidableEq

/-- commonLawRange record of SeveranceResult. -/
structure CommonLawRange where
  minWeeks : ℚ
  maxWeeks : ℚ
  minAmount : ℚ
  maxAmount : ℚ
deriving DecidableEq

/-- SeveranceResult from src/lib/types.ts. -/
structure SeveranceResult where
  statutoryMinimum : WeeksAmount
  statutorySeverance : Option WeeksAmount
  commonLawRange : CommonLawRange
  recommendedRange : WeeksAmount
deriving DecidableEq

/-- calculateSeverance from src/lib/calculations.ts. The conditional
statutorySeverance field uses JS truthiness on severanceWeeks (0 would be
falsy), modelled by the explicit inner test. -/
def calculateSeverance (input : CalculatorInput) : SeveranceResult :=
  if input.isUnionized then
    { statutoryMinimum := { weeks := 0, amount := 0 }
      statutorySeverance := none
      commonLawRange := { minWeeks := 0, maxWeeks := 0, minAmount := 0, maxAmount := 0 }
      recommendedRange := { weeks := 0, amount := 0 } }
  else
    let weeklySalary := input.annualSalary / 52
    let statutoryWeeks :=
      getStatutoryNoticeWeeks input.province input.yearsOfService input.monthsOfService
    let statutoryAmount := jsRound (statutoryWeeks * weeklySalary)
    let severanceWeeks :=
      getStatutorySeveranceWeeks input.province input.yearsOfService input.monthsOfService
        input.employerPayroll
    let commonLaw :=
      calculateCommonLawNotice input.yearsOfService input.monthsOfService
        input.ageRange input.jobPosition
    let commonLawMinAmount := jsRound (commonLaw.minWeeks * weeklySalary)
    let commonLawMaxAmount := jsRound (commonLaw.maxWeeks * weeklySalary)
    let recommendedWeeks := jsRound ((commonLaw.minWeeks + commonLaw.maxWeeks) / 2)
    let recommendedAmount := jsRound (recommendedWeeks * weeklySalary)
    { statutoryMinimum := { weeks := statutoryWeeks, amount := statutoryAmount }
      statutorySeverance :=
        match severanceWeeks with
        | some w =>
            if w ≠ 0 then some { weeks := w, amount := jsRound (w * weeklySalary) }
            else none
        | none => none
      commonLawRange :=
        { minWeeks := commonLaw.minWeeks
          maxWeeks := commonLaw.maxWeeks
          minAmount := commonLawMinAmount
          maxAmount := commonLawMaxAmount }
      recommendedRange := { weeks := recommendedWeeks, amount := recommendedAmount } }

/-- TAX_RATES lookup with fallback, getTaxRate from src/lib/tax-rates.ts.
In the source the lookup is TAX_RATES[province] with a falsy-fallback to 0.05;
no table entry is 0, so the fallback fires exactly on unrecognized codes. -/
def getTaxRate (province : String) : ℚ :=
  if province = "ON" then 0.13
  else if province = "BC" then 0.12
  else if province = "AB" then 0.05
  else if province = "SK" then 0.11
  else if province = "MB" then 0.12
  else if province = "NS" then 0.15
  else if province = "NB" then 0.15
  else if province = "NL" then 0.15
  else if province = "PE" then 0.15
  else if province = "NT" then 0.05
  else if province = "YT" then 0.05
  else if province = "NU" then 0.05
  else if province = "QC" then 0.14975
  else if province = "Federal" then 0.05
  else 0.05

/-- min/max/average fee record from LawyerPricing (types.ts). -/
structure FeeRange where
  min : ℚ
  max : ℚ
  average : ℚ
deriving DecidableEq

/-- flatFeeRange record from LawyerPricing (types.ts). -/
structure FlatFeeRange where
  min : ℚ
  max : ℚ
deriving DecidableEq

/-- contingencyFee record from LawyerPricing (types.ts). -/
structure ContingencyFeeSpec where
  percentage : ℚ
deriving DecidableEq

/-- LawyerPricing from src/lib/types.ts. -/
structure LawyerPricing where
  province : String
  consultationFee : FeeRange
  hourlyRate : FeeRange
  flatFeeRange : Option FlatFeeRange
  contingencyFee : Option ContingencyFeeSpec
deriving DecidableEq

/-- Option type tag of LawyerOption (src/lib/lawyer-cost-analysis.ts). -/
inductive OptionType where
  | consultation
  | hourly
  | flat
  | contingency
deriving DecidableEq

/-- LawyerOption from src/lib/lawyer-cost-analysis.ts. The name and
description string fields are presentation-only and elided. -/
structure LawyerOption where
  type : OptionType
  baseCost : ℚ
  tax : ℚ
  totalCost : ℚ
  estimatedRecovery : Option ℚ
  netBenefit : Option ℚ
deriving DecidableEq

/-- LawyerCostAnalysis from src/lib/lawyer-cost-analysis.ts. -/
structure LawyerCostAnalysis where
  options : List LawyerOption
  recommended : LawyerOption
  potentialGap : ℚ
  province : String
deriving DecidableEq

/-- Case complexity used by the hourly estimate. -/
inductive Complexity where
  | simple
  | moderate
  | complex
deriving DecidableEq

/-- determineComplexity from src/lib/lawyer-cost-analysis.ts. -/
def determineComplexity (gap : ℚ) : Complexity :=
  if gap < 10000 then .simple
  else if gap < 30000 then .moderate
  else .complex

/-- estimateHours from src/lib/lawyer-cost-analysis.ts. -/
def estimateHours (gap : ℚ) (complexity : Complexity) : ℚ :=
  let baseHours : ℚ := if gap < 10000 then 5 else if gap < 30000 then 8 else 12
  let multiplier : ℚ :=
    match complexity with
    | .simple => 1.0
    | .moderate => 1.5
    | .complex => 2.0
  jsRound (baseHours * multiplier)

/-- Option 1 of analyzeLawyerCosts: consultation (always generated). -/
def consultationOption (lawyerPricing : LawyerPricing) (taxRate potentialGap : ℚ) :
    LawyerOption :=
  let consultationBase := lawyerPricing.consultationFee.average
  let consultationTax := jsRound (consultationBase * taxRate)
  let consultationTotal := jsRound (consultationBase + consultationTax)
  { type := .consultation
    baseCost := consultationBase
    tax := consultationTax
    totalCost := consultationTotal
    estimatedRecovery := none
    netBenefit :=
      some (if 0 < potentialGap then jsRound (potentialGap - consultationTotal)
            else jsRound (-consultationTotal)) }

/-- Option 2 of analyzeLawyerCosts: hourly (generated when hasValue). -/
def hourlyOption (lawyerPricing : LawyerPricing) (taxRate potentialGap : ℚ)
    (customHours : Option ℚ) : LawyerOption :=
  let complexity := determineComplexity potentialGap
  let estimatedHours := customHours.getD (estimateHours potentialGap complexity)
  let hourlyBase := jsRound (lawyerPricing.hourlyRate.average * estimatedHours)
  let hourlyTax := jsRound (hourlyBase * taxRate)
  let hourlyTotal := jsRound (hourlyBase + hourlyTax)
  { type := .hourly
    baseCost := hourlyBase
    tax := hourlyTax
    totalCost := hourlyTotal
    estimatedRecovery := none
    netBenefit := some (jsRound (potentialGap - hourlyTotal)) }

/-- Option 3 of analyzeLawyerCosts: flat fee (generated when the pricing tier
exists and hasValue). -/
def flatOption (flatFeeRange : FlatFeeRange) (taxRate potentialGap : ℚ)
    (customFlatFee : Option ℚ) : LawyerOption :=
  let flatFeeBase := customFlatFee.getD flatFeeRange.min
  let flatFeeTax := jsRound (flatFeeBase * taxRate)
  let flatFeeTotal := jsRound (flatFeeBase + flatFeeTax)
  { type := .flat
    baseCost := flatFeeBase
    tax := flatFeeTax
    totalCost := flatFeeTotal
    estimatedRecovery := none
    netBenefit := some (jsRound (potentialGap - flatFeeTotal)) }

/-- Option 4 of analyzeLawyerCosts: contingency (generated when the pricing
tier exists and hasValue). -/
def contingencyOption (contingency : ContingencyFeeSpec) (taxRate potentialGap : ℚ)
    (customContingencyPercentage : Option ℚ) : LawyerOption :=
  let contingencyPercentage := (customContingencyPercentage.getD contingency.percentage) / 100
  let contingencyFee := jsRound (potentialGap * contingencyPercentage)
  let contingencyTax := jsRound (contingencyFee * taxRate)
  let contingencyTotal := jsRound (contingencyFee + contingencyTax)
  let estimatedRecovery := jsRound (potentialGap - contingencyTotal)
  { type := .contingency
    baseCost := contingencyFee
    tax := contingencyTax
    totalCost := contingencyTotal
    estimatedRecovery := some estimatedRecovery
    netBenefit := some estimatedRecovery }

/-- The sort comparator of analyzeLawyerCosts: net benefit descending, with a
contingency preference when the pairwise difference is within 10 percent of
the gap. The (x.netBenefit || 0) falsy-fallback coincides with getD 0. -/
def jsCompare (potentialGap : ℚ) (a b : LawyerOption) : ℚ :=
  let netBenefitDiff := b.netBenefit.getD 0 - a.netBenefit.getD 0
  if jsAbs netBenefitDiff < potentialGap * 0.1 then
    if a.type = .contingency ∧ b.type ≠ .contingency then -1
    else if b.type = .contingency ∧ a.type ≠ .contingency then 1
    else netBenefitDiff
  else netBenefitDiff

/-- Insert x into a list sorted by the comparator, after every element that
compares strictly before it (stable insertion). -/
def insertByCmp (cmp : LawyerOption → LawyerOption → ℚ) (x : LawyerOption) :
    List LawyerOption → List LawyerOption
  | [] => [x]
  | y :: ys => if 0 < cmp x y then y :: insertByCmp cmp x ys else x :: y :: ys

/-- Model of Array.prototype.sort with the comparator: a stable insertion
sort, which agrees with every conforming ECMAScript sort whenever the
comparator is consistent. -/
def sortByCmp (cmp : LawyerOption → LawyerOption → ℚ) (l : List LawyerOption) :
    List LawyerOption :=
  l.foldr (insertByCmp cmp) []

/-- analyzeLawyerCosts from src/lib/lawyer-cost-analysis.ts. The currentOffer,
recommendedAmount and statutoryMinimum parameters are accepted but unused by
the source body (isBasedOnOffer is computed and never read). -/
def analyzeLawyerCosts (lawyerPricing : LawyerPricing) (province : String)
    (currentOffer : Option ℚ) (recommendedAmount potentialGap statutoryMinimum : ℚ)
    (customHours customContingencyPercentage customFlatFee customTaxRate : Option ℚ) :
    LawyerCostAnalysis :=
  let taxRate := customTaxRate.getD (getTaxRate province)
  let hasValue := 0 < potentialGap
  let consultation := consultationOption lawyerPricing taxRate potentialGap
  let options : List LawyerOption :=
    [consultation]
    ++ (if hasValue then [hourlyOption lawyerPricing taxRate potentialGap customHours]
        else [])
    ++ (match lawyerPricing.flatFeeRange with
        | some fr =>
            if hasValue then [flatOption fr taxRate potentialGap customFlatFee] else []
        | none => [])
    ++ (match lawyerPricing.contingencyFee with
        | some cf =>
            if hasValue then
              [contingencyOption cf taxRate potentialGap customContingencyPercentage]
            else []
        | none => [])
  let recommended :=
    if hasValue then
      -- sortedOptions[0] when the actionable list is nonempty, falling back to
      -- options[0] (the consultation) when it is empty; the sort preserves
      -- emptiness, so headD on the sorted list captures both branches
      (sortByCmp (jsCompare potentialGap)
        (options.filter (fun opt => decide (opt.type ≠ .consultation)))).headD consultation
    else consultation
  { options := options
    recommended := recommended
    potentialGap := potentialGap
    province := province }

/-- DecisionGuidance from src/lib/decision-guide.ts. -/
structure DecisionGuidance where
  title : String
  description : String
  whenToChoose : List String
  considerations : List String
deriving DecidableEq

/-- formatCurrency from src/lib/decision-guide.ts: the source rounds and then
formats with Intl.NumberFormat en-CA (CAD, no fraction digits); the
locale-aware digit grouping is modelled by a plain dollar rendering of the
rounded amount. -/
def formatCurrency (amount : ℚ) : String :=
  "$" ++ toString ⌊amount + 1/2⌋

/-- getDecisionGuidance from src/lib/decision-guide.ts: one guidance entry per
option type found in the passed options, in the fixed order consultation,
hourly, flat, contingency. In the contingency fee line the source divides by
potentialGap with no zero guard (JS would render Infinity or NaN); the model
uses rational division, where division by zero yields zero - no verified
property inspects that string. -/
def getDecisionGuidance (potentialGap : ℚ) (options : List LawyerOption) :
    List DecisionGuidance :=
  let consultationFound := options.find? (fun o => decide (o.type = .consultation))
  let hourlyFound := options.find? (fun o => decide (o.type = .hourly))
  let flatFound := options.find? (fun o => decide (o.type = .flat))
  let contingencyFound := options.find? (fun o => decide (o.type = .contingency))
  (match consultationFound with
   | some consultationOpt =>
       [{ title := "Consultation Only"
          description := "Get legal advice without full representation"
          whenToChoose :=
            ["Potential gap is small (under " ++ formatCurrency 5000 ++ ")",
             "You want to understand your rights but may negotiate yourself",
             "You\x27re unsure if pursuing legal action is worth it",
             "You need quick advice on a severance package"]
          considerations :=
            ["Cost: " ++ formatCurrency consultationOpt.totalCost,
             "You handle negotiations yourself after getting advice",
             "Best for straightforward cases or when gap is minimal",
             "No ongoing legal representation"] }]
   | none => [])
  ++ (match hourlyFound with
      | some hourlyOpt =>
          [{ title := "Hourly Rate"
             description := "Pay by the hour for negotiation services"
             whenToChoose :=
               ["Potential gap is moderate (" ++ formatCurrency 5000 ++ " - "
                  ++ formatCurrency 25000 ++ ")",
                "Case complexity is uncertain",
                "You want flexibility in legal representation",
                "Negotiation may be quick or may require multiple rounds"]
             considerations :=
               ["Estimated cost: " ++ formatCurrency hourlyOpt.totalCost,
                "Costs can vary based on actual hours needed",
                "You pay regardless of outcome",
                "Good for cases where complexity is hard to predict"] }]
      | none => [])
  ++ (match flatFound with
      | some flatOpt =>
          [{ title := "Flat Fee Package"
             description := "Fixed fee for complete negotiation"
             whenToChoose :=
               ["Potential gap is moderate to large (" ++ formatCurrency 10000 ++ "+)",
                "You want cost certainty upfront",
                "Case appears straightforward or moderately complex",
                "You prefer predictable expenses"]
             considerations :=
               ["Fixed cost: " ++ formatCurrency flatOpt.totalCost,
                "No surprises - you know the total cost upfront",
                "You pay regardless of outcome",
                "Best when case complexity is predictable"] }]
      | none => [])
  ++ (match contingencyFound with
      | some contingencyOpt =>
          [{ title := "Contingency Fee"
             description := "Pay only if lawyer recovers additional severance"
             whenToChoose :=
               ["Potential gap is significant (" ++ formatCurrency 15000 ++ "+)",
                "You want to minimize financial risk",
                "You\x27re confident there\x27s a strong case",
                "You prefer to share risk with your lawyer"]
             considerations :=
               [(if contingencyOpt.baseCost ≠ 0 then
                   "Fee: " ++ formatCurrency contingencyOpt.baseCost ++ " ("
                     ++ toString ⌊contingencyOpt.baseCost / potentialGap * 100 + 1/2⌋
                     ++ "% of recovery)"
                 else "Fee: Percentage of recovery"),
                (match contingencyOpt.estimatedRecovery with
                 | some r =>
                     if r ≠ 0 then "Estimated net recovery: " ++ formatCurrency r
                     else "Estimated net recovery: Varies"
                 | none => "Estimated net recovery: Varies"),
                "No upfront costs - only pay if successful",
                "Lawyer is incentivized to maximize your recovery",
                "Best for larger gaps where risk-sharing makes sense"] }]
      | none => [])

/-- Claim-side restatement of the statutory-minimum-notice rule (for claim C8):
Federal has its own tiered formula, exactly the two jurisdictions NB and PE use
a 4-week cap, every other recognized code and every unrecognized code uses the
8-week cap. Written from the words of the spec, to be compared with
getStatutoryNoticeWeeks. -/
def statutoryNoticeSpec (province : String) (yearsOfService monthsOfService : ℚ) : ℚ :=
  let totalYears := yearsOfService + monthsOfService / 12
  if province = "Federal" then
    if totalYears < 1 then 0 else jsMin (2 + jsFloor (totalYears - 1)) 8
  else if province = "NB" ∨ province = "PE" then jsMin (jsFloor totalYears) 4
  else jsMin (jsFloor totalYears) 8

/-- Concrete zero-service profile (boundary input of spec section 8). -/
def profileZeroService : CalculatorInput :=
  { province := "ON"
    yearsOfService := 0
    monthsOfService := 0
    ageRange := .under30
    jobPosition := .labourer
    annualSalary := 52000
    isUnionized := false
    currentOffer := none
    employerPayroll := none }

/-- Concrete zero-service professional profile (boundary input of spec
section 8, with mid-scale multipliers). -/
def profileZeroServicePro : CalculatorInput :=
  { province := "ON"
    yearsOfService := 0
    monthsOfService := 0
    ageRange := .range41to50
    jobPosition := .professional
    annualSalary := 52000
    isUnionized := false
    currentOffer := none
    employerPayroll := none }

/-- Concrete profile with a negative annual salary (invalid per the spec
error taxonomy). -/
def profileNegativeSalary : CalculatorInput :=
  { province := "ON"
    yearsOfService := 10
    monthsOfService := 0
    ageRange := .range41to50
    jobPosition := .professional
    annualSalary := -52000
    isUnionized := false
    currentOffer := none
    employerPayroll := none }

/-- Concrete eligible Ontario profile for the statutory-severance rule. -/
def profileOntarioSeverance : CalculatorInput :=
  { province := "ON"
    yearsOfService := 10
    monthsOfService := 0
    ageRange := .range41to50
    jobPosition := .professional
    annualSalary := 104000
    isUnionized := false
    currentOffer := none
    employerPayroll := some 3000000 }

/-- Concrete pricing with both optional tiers defined, used to exercise the
recommendation selector at explicit inputs. -/
def pricingFullTiers : LawyerPricing :=
  { province := "AB"
    consultationFee := { min := 100, max := 100, average := 100 }
    hourlyRate := { min := 450, max := 450, average := 450 }
    flatFeeRange := some { min := 15000, max := 20000 }
    contingencyFee := some { percentage := 10 } }

/-- Concrete consultation option (type tag consultation) used as a passed-in
cost option for the guidance composer. -/
def sampleConsultationOption : LawyerOption :=
  { type := .consultation
    baseCost := 350
    tax := 46
    totalCost := 396
    estimatedRecovery := none
    netBenefit := some (-396) }

theorem jsRound_intCast (k : ℤ) : jsRound (k : ℚ) = (k : ℚ) := by
  unfold jsRound
  have h : ⌊(k : ℚ) + 1/2⌋ = k := by
    rw [add_comm, Int.floor_add_int]
    norm_num
  rw [h]

theorem jsRound_mono {a b : ℚ} (h : a ≤ b) : jsRound a ≤ jsRound b := by
  unfold jsRound
  exact_mod_cast Int.floor_le_floor (by linarith)

theorem jsRound_nonneg {a : ℚ} (h : 0 ≤ a) : 0 ≤ jsRound a := by
  have h0 : jsRound 0 = 0 := by unfold jsRound; norm_num
  calc (0:ℚ) = jsRound 0 := h0.symm
    _ ≤ jsRound a := jsRound_mono h

theorem jsRound_nonpos {a : ℚ} (h : a ≤ 0) : jsRound a ≤ 0 := by
  have h0 : jsRound 0 = 0 := by unfold jsRound; norm_num
  calc jsRound a ≤ jsRound 0 := jsRound_mono h
    _ = 0 := h0

theorem jsFloor_nonneg {a : ℚ} (h : 0 ≤ a) : 0 ≤ jsFloor a := by
  unfold jsFloor
  exact_mod_cast Int.floor_nonneg.mpr h

theorem jsRound_sub_jsRound (g : ℤ) (q : ℚ) :
    jsRound ((g : ℚ) - jsRound q) = (g : ℚ) - jsRound q := by
  have h : (g : ℚ) - jsRound q = ((g - ⌊q + 1/2⌋ : ℤ) : ℚ) := by
    unfold jsRound; push_cast; ring
  rw [h, jsRound_intCast]

theorem jsRound_neg_jsRound (q : ℚ) : jsRound (-(jsRound q)) = -(jsRound q) := by
  have h : -(jsRound q) = ((-⌊q + 1/2⌋ : ℤ) : ℚ) := by
    unfold jsRound; push_cast; ring
  rw [h, jsRound_intCast]

theorem mem_insertByCmp {cmp : LawyerOption → LawyerOption → ℚ} {x a : LawyerOption}
    {l : List LawyerOption} : a ∈ insertByCmp cmp x l ↔ a = x ∨ a ∈ l := by
  induction l with
  | nil => simp [insertByCmp]
  | cons y ys ih =>
      by_cases h : 0 < cmp x y
      · simp only [insertByCmp, if_pos h, List.mem_cons, ih]
        tauto
      · simp only [insertByCmp, if_neg h, List.mem_cons]

theorem mem_sortByCmp {cmp : LawyerOption → LawyerOption → ℚ} {a : LawyerOption}
    {l : List LawyerOption} : a ∈ sortByCmp cmp l ↔ a ∈ l := by
  induction l with
  | nil => simp [sortByCmp]
  | cons y ys ih =>
      rw [show sortByCmp cmp (y :: ys) = insertByCmp cmp y (sortByCmp cmp ys) from rfl,
        mem_insertByCmp, ih, List.mem_cons]

theorem getAgeMultiplier_pos : ∀ a, 0 < getAgeMultiplier a := by
  intro a
  cases a <;> norm_num [getAgeMultiplier]

theorem getPositionMultiplier_pos : ∀ p, 0 < getPositionMultiplier p := by
  intro p
  cases p <;> norm_num [getPositionMultiplier]

theorem getAgeMultiplier_monotone (a₁ a₂ : AgeRange) (h : ageRank a₁ ≤ ageRank a₂) :
    getAgeMultiplier a₁ ≤ getAgeMultiplier a₂ := by
  cases a₁ <;> cases a₂ <;> simp_all [ageRank, getAgeMultiplier] <;> norm_num

theorem jsFloor_ge_intCast {a : ℚ} {n : ℤ} (h : (n : ℚ) ≤ a) : (n : ℚ) ≤ jsFloor a := by
  unfold jsFloor
  exact_mod_cast Int.le_floor.mpr h

theorem jsMin_eq (a b : ℚ) : jsMin a b = min a b := by
  unfold jsMin
  split_ifs with h
  · exact (min_eq_left h).symm
  · exact (min_eq_right (le_of_not_le h)).symm

theorem jsMax_eq (a b : ℚ) : jsMax a b = max a b := by
  unfold jsMax
  split_ifs with h
  · exact (max_eq_right h).symm
  · exact (max_eq_left (le_of_not_le h)).symm

theorem jsAbs_eq (q : ℚ) : jsAbs q = |q| := by
  unfold jsAbs
  split_ifs with h
  · exact (abs_of_neg h).symm
  · exact (abs_of_nonneg (not_lt.mp h)).symm

set_option maxHeartbeats 1000000 in
theorem getStatutoryNoticeWeeks_eq_spec (province : String) (y m : ℚ) :
    getStatutoryNoticeWeeks province y m = statutoryNoticeSpec province y m := by
  simp only [getStatutoryNoticeWeeks, statutoryNoticeSpec]
  by_cases h1 : province = "ON"
  · subst h1; simp
  rw [if_neg h1]
  by_cases h2 : province = "BC"
  · subst h2; simp
  rw [if_neg h2]
  by_cases h3 : province = "AB"
  · subst h3; simp
  rw [if_neg h3]
  by_cases h4 : province = "SK"
  · subst h4; simp
  rw [if_neg h4]
  by_cases h5 : province = "MB"
  · subst h5; simp
  rw [if_neg h5]
  by_cases h6 : province = "NS"
  · subst h6; simp
  rw [if_neg h6]
  by_cases h7 : province = "NB"
  · subst h7; simp
  rw [if_neg h7]
  by_cases h8 : province = "NL"
  · subst h8; simp
  rw [if_neg h8]
  by_cases h9 : province = "PE"
  · subst h9; simp
  rw [if_neg h9]
  by_cases h10 : province = "NT"
  · subst h10; simp
  rw [if_neg h10]
  by_cases h11 : province = "YT"
  · subst h11; simp
  rw [if_neg h11]
  by_cases h12 : province = "NU"
  · subst h12; simp
  rw [if_neg h12]
  by_cases h13 : province = "QC"
  · subst h13; simp
  rw [if_neg h13]
  by_cases h14 : province = "Federal"
  · subst h14; simp
  rw [if_neg h14, if_neg h14]
  have hnp : ¬(province = "NB" ∨ province = "PE") := by
    rintro (h | h)
    · exact h7 h
    · exact h9 h
  rw [if_neg hnp]

theorem jsMin_nonneg {a b : ℚ} (ha : 0 ≤ a) (hb : 0 ≤ b) : 0 ≤ jsMin a b := by
  unfold jsMin
  split_ifs <;> assumption

theorem getStatutoryNoticeWeeks_nonneg (province : String) {y m : ℚ}
    (hy : 0 ≤ y) (hm : 0 ≤ m) : 0 ≤ getStatutoryNoticeWeeks province y m := by
  have ht : 0 ≤ y + m / 12 := by positivity
  have hf : 0 ≤ jsFloor (y + m / 12) := jsFloor_nonneg ht
  rw [getStatutoryNoticeWeeks_eq_spec]
  simp only [statutoryNoticeSpec]
  split_ifs with h1 hlt h2
  · norm_num
  · have hge : (0 : ℚ) ≤ (y + m / 12) - 1 := by linarith [not_lt.mp hlt]
    have hfl := jsFloor_nonneg hge
    exact jsMin_nonneg (by linarith) (by norm_num)
  · exact jsMin_nonneg hf (by norm_num)
  · exact jsMin_nonneg hf (by norm_num)

theorem calculateCommonLawNotice_nonneg (y m : ℚ) (hy : 0 ≤ y) (hm : 0 ≤ m)
    (a : AgeRange) (p : JobPosition) :
    0 ≤ (calculateCommonLawNotice y m a p).minWeeks ∧
    0 ≤ (calculateCommonLawNotice y m a p).maxWeeks := by
  have ht : 0 ≤ y + m / 12 := by positivity
  have hadj : 0 ≤ max 1 (min 2 (y + m / 12)) * (y + m / 12) *
      getAgeMultiplier a * getPositionMultiplier p :=
    mul_nonneg
      (mul_nonneg (mul_nonneg (le_trans zero_le_one (le_max_left _ _)) ht)
        (getAgeMultiplier_pos a).le)
      (getPositionMultiplier_pos p).le
  simp only [calculateCommonLawNotice, jsMin_eq, jsMax_eq]
  constructor
  · exact jsRound_nonneg
      (mul_nonneg (le_trans (by norm_num) (le_max_left (0.5 : ℚ) _)) (by norm_num))
  · exact jsRound_nonneg
      (mul_nonneg (le_min (mul_nonneg hadj (by norm_num)) (by norm_num)) (by norm_num))

theorem calculateCommonLawNotice_mono (y m : ℚ) (hy : 0 ≤ y) (hm : 0 ≤ m)
    (a₁ a₂ : AgeRange) (p₁ p₂ : JobPosition)
    (ha : getAgeMultiplier a₁ ≤ getAgeMultiplier a₂)
    (hp : getPositionMultiplier p₁ ≤ getPositionMultiplier p₂) :
    (calculateCommonLawNotice y m a₁ p₁).minWeeks ≤
      (calculateCommonLawNotice y m a₂ p₂).minWeeks ∧
    (calculateCommonLawNotice y m a₁ p₁).maxWeeks ≤
      (calculateCommonLawNotice y m a₂ p₂).maxWeeks := by
  have ht : 0 ≤ y + m / 12 := by positivity
  have hbt : 0 ≤ max 1 (min 2 (y + m / 12)) * (y + m / 12) :=
    mul_nonneg (le_trans zero_le_one (le_max_left _ _)) ht
  have hmm : getAgeMultiplier a₁ * getPositionMultiplier p₁ ≤
      getAgeMultiplier a₂ * getPositionMultiplier p₂ :=
    mul_le_mul ha hp (getPositionMultiplier_pos p₁).le (getAgeMultiplier_pos a₂).le
  have hadj : max 1 (min 2 (y + m / 12)) * (y + m / 12) *
        getAgeMultiplier a₁ * getPositionMultiplier p₁ ≤
      max 1 (min 2 (y + m / 12)) * (y + m / 12) *
        getAgeMultiplier a₂ * getPositionMultiplier p₂ := by
    calc max 1 (min 2 (y + m / 12)) * (y + m / 12) *
          getAgeMultiplier a₁ * getPositionMultiplier p₁
        = max 1 (min 2 (y + m / 12)) * (y + m / 12) *
            (getAgeMultiplier a₁ * getPositionMultiplier p₁) := by ring
      _ ≤ max 1 (min 2 (y + m / 12)) * (y + m / 12) *
            (getAgeMultiplier a₂ * getPositionMultiplier p₂) :=
          mul_le_mul_of_nonneg_left hmm hbt
      _ = max 1 (min 2 (y + m / 12)) * (y + m / 12) *
            getAgeMultiplier a₂ * getPositionMultiplier p₂ := by ring
  simp only [calculateCommonLawNotice, jsMin_eq, jsMax_eq]
  constructor
  · apply jsRound_mono
    apply mul_le_mul_of_nonneg_right _ (by norm_num : (0:ℚ) ≤ 4.33)
    exact max_le_max le_rfl
      (min_le_min (mul_le_mul_of_nonneg_right hadj (by norm_num)) le_rfl)
  · apply jsRound_mono
    apply mul_le_mul_of_nonneg_right _ (by norm_num : (0:ℚ) ≤ 4.33)
    exact min_le_min (mul_le_mul_of_nonneg_right hadj (by norm_num)) le_rfl

theorem optionType_hourly_eq_consultation :
    (OptionType.hourly = OptionType.consultation) = False := by simp

theorem optionType_flat_eq_consultation :
    (OptionType.flat = OptionType.consultation) = False := by simp

theorem optionType_contingency_eq_consultation :
    (OptionType.contingency = OptionType.consultation) = False := by simp

theorem optionType_hourly_eq_contingency :
    (OptionType.hourly = OptionType.contingency) = False := by simp

theorem optionType_flat_eq_contingency :
    (OptionType.flat = OptionType.contingency) = False := by simp

theorem optionType_consultation_eq_contingency :
    (OptionType.consultation = OptionType.contingency) = False := by simp

/-- Claim C8: for every jurisdiction code (recognized or not) and service
duration, the statutory minimum notice weeks of getStatutoryNoticeWeeks follow
the spec formula: Federal is 0 below one year of service and otherwise
min(2 + floor(totalYears − 1), 8); exactly the two codes NB and PE use the
4-week cap min(floor(totalYears), 4); every other recognized code and every
unrecognized code uses min(floor(totalYears), 8). -/
theorem C8_statutory_notice_formula (province : String)
    (yearsOfService monthsOfService : ℚ) :
    getStatutoryNoticeWeeks province yearsOfService monthsOfService =
      statutoryNoticeSpec province yearsOfService monthsOfService :=
  getStatutoryNoticeWeeks_eq_spec province yearsOfService monthsOfService

/-- Claim C3: the invariant minWeeks ≤ maxWeeks fails on the code. At the
zero-service boundary (totalYears = 0, non-unionized) the common-law range of
calculateSeverance is inverted: minWeeks = 2 and maxWeeks = 0, and no clamping
of min down to max (nor of max up to min) is performed. -/
theorem C3_inverted_range_at_zero_service :
    (calculateSeverance profileZeroService).commonLawRange.minWeeks = 2 ∧
    (calculateSeverance profileZeroService).commonLawRange.maxWeeks = 0 ∧
    (calculateSeverance profileZeroService).commonLawRange.maxWeeks <
      (calculateSeverance profileZeroService).commonLawRange.minWeeks := by
  norm_num [calculateSeverance, profileZeroService, calculateCommonLawNotice,
    getAgeMultiplier, getPositionMultiplier, jsRound, jsMax, jsMin, jsFloor]

/-- Claim C4: the invariant minAmount ≤ recommended.amount ≤ maxAmount fails on
the code. For the valid zero-service profile (totalYears = 0, salary 52000,
non-unionized) the estimate has maxAmount = 0 but recommended amount = 1000
(and minAmount = 2000), because the inverted common-law range propagates into
the amounts. -/
theorem C4_recommended_exceeds_max_at_zero_service :
    (calculateSeverance profileZeroServicePro).commonLawRange.maxAmount = 0 ∧
    (calculateSeverance profileZeroServicePro).recommendedRange.amount = 1000 ∧
    (calculateSeverance profileZeroServicePro).commonLawRange.maxAmount <
      (calculateSeverance profileZeroServicePro).recommendedRange.amount := by
  norm_num [calculateSeverance, profileZeroServicePro, calculateCommonLawNotice,
    getAgeMultiplier, getPositionMultiplier, jsRound, jsMax, jsMin, jsFloor]

/-- Claim C2 (counterexample): with potentialGap = 0 and a consultation option
among the passed cost options, getDecisionGuidance returns a non-empty list,
contradicting the claim that the list is empty whenever potentialGap ≤ 0
regardless of which cost options are passed. -/
theorem C2_counterexample : getDecisionGuidance 0 [sampleConsultationOption] ≠ [] := by
  simp [getDecisionGuidance, sampleConsultationOption, List.find?]

/-- Claim C2 (amended): getDecisionGuidance ignores potentialGap when deciding
which entries to emit; the returned list is empty exactly when the passed
options list is empty (one entry is emitted per option type present; the
potentialGap > 0 gate lives in the caller, not in the composer). -/
theorem C2_amended_empty_iff_no_options (potentialGap : ℚ)
    (options : List LawyerOption) :
    getDecisionGuidance potentialGap options = [] ↔ options = [] := by
  cases options with
  | nil => simp [getDecisionGuidance]
  | cons o rest =>
      simp only [getDecisionGuidance]
      constructor
      · intro h
        exfalso
        simp only [List.append_eq_nil] at h
        obtain ⟨⟨⟨hA, hB⟩, hC⟩, hD⟩ := h
        cases hot : o.type
        case consultation =>
          rw [List.find?_cons_of_pos _ (by simp [hot])] at hA
          simp at hA
        case hourly =>
          rw [List.find?_cons_of_pos _ (by simp [hot])] at hB
          simp at hB
        case flat =>
          rw [List.find?_cons_of_pos _ (by simp [hot])] at hC
          simp at hC
        case contingency =>
          rw [List.find?_cons_of_pos _ (by simp [hot])] at hD
          simp at hD
      · intro h
        simp at h

/-- Claim C1 (counterexample): for a non-unionized profile with negative
annual salary (an InvalidInput per the spec), calculateSeverance does not
reject the computation: it returns a fully computed estimate with negative
monetary amounts. The function is total and has no error channel at all. -/
theorem C1_counterexample :
    (calculateSeverance profileNegativeSalary).statutoryMinimum.amount = -8000 ∧
    (calculateSeverance profileNegativeSalary).recommendedRange.amount = -65000 := by
  norm_num [calculateSeverance, profileNegativeSalary, calculateCommonLawNotice,
    getAgeMultiplier, getPositionMultiplier, getStatutoryNoticeWeeks,
    jsRound, jsMax, jsMin, jsFloor]

/-- Claim C1 (amended): calculateSeverance performs no input validation; it
computes an estimate for every profile by the same formulas. For a
non-unionized profile with nonnegative service duration and non-positive
salary, every monetary amount of the returned estimate is non-positive - a
silently computed (nonsensical) result rather than a rejected computation. -/
theorem C1_amended_no_rejection (input : CalculatorInput)
    (hs : input.annualSalary ≤ 0) (hy : 0 ≤ input.yearsOfService)
    (hm : 0 ≤ input.monthsOfService) (hu : input.isUnionized = false) :
    (calculateSeverance input).statutoryMinimum.amount ≤ 0 ∧
    (calculateSeverance input).commonLawRange.minAmount ≤ 0 ∧
    (calculateSeverance input).recommendedRange.amount ≤ 0 := by
  have hw : input.annualSalary / 52 ≤ 0 := by linarith
  have hstat := getStatutoryNoticeWeeks_nonneg input.province hy hm
  have hcl := calculateCommonLawNotice_nonneg input.yearsOfService
    input.monthsOfService hy hm input.ageRange input.jobPosition
  simp only [calculateSeverance, hu, Bool.false_eq_true, if_false]
  refine ⟨?_, ?_, ?_⟩
  · apply jsRound_nonpos
    have h := mul_le_mul_of_nonneg_left hw hstat
    simpa using h
  · apply jsRound_nonpos
    have h := mul_le_mul_of_nonneg_left hw hcl.1
    simpa using h
  · apply jsRound_nonpos
    have hrw : 0 ≤ jsRound (((calculateCommonLawNotice input.yearsOfService
        input.monthsOfService input.ageRange input.jobPosition).minWeeks +
        (calculateCommonLawNotice input.yearsOfService input.monthsOfService
          input.ageRange input.jobPosition).maxWeeks) / 2) :=
      jsRound_nonneg (div_nonneg (add_nonneg hcl.1 hcl.2) (by norm_num))
    have h := mul_le_mul_of_nonneg_left hw hrw
    simpa using h

/-- Witness for C1_amended_no_rejection at the concrete negative-salary
profile. -/
theorem C1_amended_no_rejection_witness :
    profileNegativeSalary.annualSalary ≤ 0 ∧
    (calculateSeverance profileNegativeSalary).recommendedRange.amount ≤ 0 :=
  ⟨by norm_num [profileNegativeSalary],
   (C1_amended_no_rejection profileNegativeSalary
      (by norm_num [profileNegativeSalary]) (by norm_num [profileNegativeSalary])
      (by norm_num [profileNegativeSalary]) rfl).2.2⟩

/-- Claim C7: for every non-unionized profile, the statutorySeverance field of
the estimate is present iff the jurisdiction is Ontario, the declared employer
payroll is at least 2,500,000, and total years of service is at least 5; when
present its weeks equal min(floor(totalYears), 26); otherwise the field is
absent. -/
theorem C7_statutory_severance_iff (input : CalculatorInput)
    (hu : input.isUnionized = false) :
    ((calculateSeverance input).statutorySeverance.isSome ↔
      (input.province = "ON" ∧
       (∃ p, input.employerPayroll = some p ∧ 2500000 ≤ p) ∧
       5 ≤ input.yearsOfService + input.monthsOfService / 12)) ∧
    (∀ s, (calculateSeverance input).statutorySeverance = some s →
      s.weeks = min (jsFloor (input.yearsOfService + input.monthsOfService / 12)) 26) := by
  simp only [calculateSeverance, hu, Bool.false_eq_true, if_false]
  by_cases hON : input.province = "ON"
  · cases hp : input.employerPayroll with
    | none =>
        have hW : getStatutorySeveranceWeeks input.province input.yearsOfService
            input.monthsOfService none = none := by
          simp [getStatutorySeveranceWeeks, hON]
        rw [hW]
        simp
    | some p =>
        by_cases hc : p ≠ 0 ∧ 2500000 ≤ p ∧
            5 ≤ input.yearsOfService + input.monthsOfService / 12
        · have hW : getStatutorySeveranceWeeks input.province input.yearsOfService
              input.monthsOfService (some p) =
                some (jsMin (jsFloor (input.yearsOfService +
                  input.monthsOfService / 12)) 26) := by
            simp only [getStatutorySeveranceWeeks, hON]
            rw [if_neg (by simp), if_pos hc]
          have h5 : (5:ℚ) ≤ jsMin (jsFloor (input.yearsOfService +
              input.monthsOfService / 12)) 26 := by
            unfold jsMin
            split_ifs
            · exact jsFloor_ge_intCast (by exact_mod_cast hc.2.2)
            · norm_num
          have hne : jsMin (jsFloor (input.yearsOfService +
              input.monthsOfService / 12)) 26 ≠ 0 :=
            ne_of_gt (lt_of_lt_of_le (by norm_num) h5)
          rw [hW]
          simp only [ne_eq, hne, not_false_eq_true, ite_true, Option.isSome_some,
            true_iff, Option.some.injEq]
          constructor
          · exact ⟨hON, ⟨p, rfl, hc.2.1⟩, hc.2.2⟩
          · intro s hs
            rw [← hs, jsMin_eq]
        · have hW : getStatutorySeveranceWeeks input.province input.yearsOfService
              input.monthsOfService (some p) = none := by
            simp only [getStatutorySeveranceWeeks, hON]
            rw [if_neg (by simp), if_neg hc]
          rw [hW]
          constructor
          · simp only [Option.isSome_none]
            constructor
            · intro h
              exact absurd h (by simp)
            · rintro ⟨-, ⟨q, hq, hq2⟩, ht⟩
              have hpq : p = q := by
                have := (Option.some.injEq _ _).mp hq
                exact this
              exact absurd ⟨by subst hpq; intro h0; rw [h0] at hq2; norm_num at hq2,
                by rw [hpq]; exact hq2, ht⟩ hc
          · intro s hs
            simp at hs
  · have hW : getStatutorySeveranceWeeks input.province input.yearsOfService
        input.monthsOfService input.employerPayroll = none := by
      simp [getStatutorySeveranceWeeks, hON]
    rw [hW]
    simp [hON]

/-- Witness for C7_statutory_severance_iff at a concrete eligible Ontario
profile (10 years of service, payroll 3,000,000). -/
theorem C7_statutory_severance_iff_witness :
    (calculateSeverance profileOntarioSeverance).statutorySeverance.isSome = true :=
  (C7_statutory_severance_iff profileOntarioSeverance rfl).1.mpr
    ⟨rfl, ⟨3000000, rfl, by norm_num⟩, by norm_num [profileOntarioSeverance]⟩

/-- Claim C9: holding jurisdiction, service duration, salary and the remaining
profile fields fixed (valid: nonnegative duration and salary), replacing the
age bracket by a higher one and/or the job position by one with a higher
multiplier never decreases any of the four common-law range bounds returned by
calculateSeverance. -/
theorem C9_commonlaw_monotonicity (input : CalculatorInput) (a₁ a₂ : AgeRange)
    (p₁ p₂ : JobPosition) (hy : 0 ≤ input.yearsOfService)
    (hm : 0 ≤ input.monthsOfService) (hs : 0 ≤ input.annualSalary)
    (ha : ageRank a₁ ≤ ageRank a₂)
    (hp : getPositionMultiplier p₁ ≤ getPositionMultiplier p₂) :
    (calculateSeverance { input with ageRange := a₁, jobPosition := p₁
      }).commonLawRange.minWeeks ≤
      (calculateSeverance { input with ageRange := a₂, jobPosition := p₂
        }).commonLawRange.minWeeks ∧
    (calculateSeverance { input with ageRange := a₁, jobPosition := p₁
      }).commonLawRange.maxWeeks ≤
      (calculateSeverance { input with ageRange := a₂, jobPosition := p₂
        }).commonLawRange.maxWeeks ∧
    (calculateSeverance { input with ageRange := a₁, jobPosition := p₁
      }).commonLawRange.minAmount ≤
      (calculateSeverance { input with ageRange := a₂, jobPosition := p₂
        }).commonLawRange.minAmount ∧
    (calculateSeverance { input with ageRange := a₁, jobPosition := p₁
      }).commonLawRange.maxAmount ≤
      (calculateSeverance { input with ageRange := a₂, jobPosition := p₂
        }).commonLawRange.maxAmount := by
  have hmono := calculateCommonLawNotice_mono input.yearsOfService
    input.monthsOfService hy hm a₁ a₂ p₁ p₂ (getAgeMultiplier_monotone a₁ a₂ ha) hp
  have hw : (0:ℚ) ≤ input.annualSalary / 52 := by positivity
  by_cases hu : input.isUnionized
  · simp [calculateSeverance, hu]
  · simp only [calculateSeverance, hu, Bool.false_eq_true, if_false]
    refine ⟨hmono.1, hmono.2, ?_, ?_⟩
    · exact jsRound_mono (mul_le_mul_of_nonneg_right hmono.1 hw)
    · exact jsRound_mono (mul_le_mul_of_nonneg_right hmono.2 hw)

/-- Witness for C9_commonlaw_monotonicity: raising the age bracket from
under-30 to 70+ and the position from labourer to upper management at a
concrete profile does not decrease the max amount. -/
theorem C9_commonlaw_monotonicity_witness :
    ageRank AgeRange.under30 ≤ ageRank AgeRange.range70plus ∧
    (calculateSeverance { profileOntarioSeverance with
        ageRange := AgeRange.under30,
        jobPosition := JobPosition.labourer }).commonLawRange.maxAmount ≤
      (calculateSeverance { profileOntarioSeverance with
        ageRange := AgeRange.range70plus,
        jobPosition := JobPosition.upperManagement }).commonLawRange.maxAmount :=
  ⟨by norm_num [ageRank],
   (C9_commonlaw_monotonicity profileOntarioSeverance AgeRange.under30
      AgeRange.range70plus JobPosition.labourer JobPosition.upperManagement
      (by norm_num [profileOntarioSeverance])
      (by norm_num [profileOntarioSeverance])
      (by norm_num [profileOntarioSeverance])
      (by norm_num [ageRank])
      (by norm_num [getPositionMultiplier])).2.2.2⟩

theorem consultationOption_type (P : LawyerPricing) (t g : ℚ) :
    (consultationOption P t g).type = OptionType.consultation := rfl

theorem hourlyOption_type (P : LawyerPricing) (t g : ℚ) (ch : Option ℚ) :
    (hourlyOption P t g ch).type = OptionType.hourly := rfl

theorem flatOption_type (fr : FlatFeeRange) (t g : ℚ) (cf : Option ℚ) :
    (flatOption fr t g cf).type = OptionType.flat := rfl

theorem contingencyOption_type (cf : ContingencyFeeSpec) (t g : ℚ) (cc : Option ℚ) :
    (contingencyOption cf t g cc).type = OptionType.contingency := rfl

theorem sorted_headD_eq_or_mem (c : LawyerOption)
    (cmp : LawyerOption → LawyerOption → ℚ) (l : List LawyerOption) :
    (sortByCmp cmp l).headD c = c ∨ (sortByCmp cmp l).headD c ∈ l := by
  cases hs : sortByCmp cmp l with
  | nil => left; rfl
  | cons r t =>
      right
      have hr : r ∈ sortByCmp cmp l := by
        rw [hs]
        exact List.mem_cons_self r t
      simpa using mem_sortByCmp.mp hr

/-- Claim C10: analyzeLawyerCosts always returns a non-empty options list whose
first element is the consultation option; the recommended option is always an
element of the options list; and when potentialGap ≤ 0 the recommended option
is the consultation option itself. -/
theorem C10_options_shape (lawyerPricing : LawyerPricing) (province : String)
    (currentOffer : Option ℚ) (recommendedAmount potentialGap statutoryMinimum : ℚ)
    (customHours customContingencyPercentage customFlatFee customTaxRate : Option ℚ) :
    (analyzeLawyerCosts lawyerPricing province currentOffer recommendedAmount
        potentialGap statutoryMinimum customHours customContingencyPercentage
        customFlatFee customTaxRate).options.head? =
      some (consultationOption lawyerPricing
        (customTaxRate.getD (getTaxRate province)) potentialGap) ∧
    (analyzeLawyerCosts lawyerPricing province currentOffer recommendedAmount
        potentialGap statutoryMinimum customHours customContingencyPercentage
        customFlatFee customTaxRate).recommended ∈
      (analyzeLawyerCosts lawyerPricing province currentOffer recommendedAmount
        potentialGap statutoryMinimum customHours customContingencyPercentage
        customFlatFee customTaxRate).options ∧
    (potentialGap ≤ 0 →
      (analyzeLawyerCosts lawyerPricing province currentOffer recommendedAmount
          potentialGap statutoryMinimum customHours customContingencyPercentage
          customFlatFee customTaxRate).recommended =
        consultationOption lawyerPricing
          (customTaxRate.getD (getTaxRate province)) potentialGap) := by
  simp only [analyzeLawyerCosts]
  refine ⟨rfl, ?_, ?_⟩
  · by_cases hg : 0 < potentialGap
    · simp only [if_pos hg]
      rcases sorted_headD_eq_or_mem
          (consultationOption lawyerPricing
            (customTaxRate.getD (getTaxRate province)) potentialGap)
          (jsCompare potentialGap) _ with h | h
      · rw [h]
        simp
      · exact List.mem_of_mem_filter h
    · simp only [if_neg hg]
      simp
  · intro hg
    simp only [if_neg (not_lt.mpr hg)]

/-- Claim C6 (counterexample): at a reachable fractional gap (100.5 currency
units) the consultation option is present but its net benefit is the rounded
value 1 = round(100.5 − 100), not potentialGap − totalCost = 0.5 as the claim
states. -/
theorem C6_counterexample :
    ∃ o ∈ (analyzeLawyerCosts pricingFullTiers "AB" none 0 (201/2) 0
        none none none (some 0)).options,
      o.type = OptionType.consultation ∧
      o.totalCost = 100 ∧
      o.netBenefit = some 1 ∧
      (201/2 : ℚ) - o.totalCost = 1/2 ∧
      o.netBenefit ≠ some ((201/2 : ℚ) - o.totalCost) := by
  refine ⟨consultationOption pricingFullTiers 0 (201/2), ?_, rfl, ?_, ?_, ?_, ?_⟩
  · norm_num [analyzeLawyerCosts, pricingFullTiers]
  · norm_num [consultationOption, pricingFullTiers, jsRound]
  · norm_num [consultationOption, pricingFullTiers, jsRound]
  · norm_num [consultationOption, pricingFullTiers, jsRound]
  · norm_num [consultationOption, pricingFullTiers, jsRound]

/-- Claim C6 (amended): for every call (any rational potentialGap), the
consultation option is always present and its net benefit is the rounded
difference round(potentialGap − totalCost) when potentialGap > 0 and
round(−totalCost) otherwise (equal to the exact difference whenever the gap is
a whole currency amount); the hourly option is present iff potentialGap > 0;
the flat and contingency options are present iff potentialGap > 0 and the
pricing defines the flat-fee range (respectively the contingency
percentage). -/
theorem C6_amended_rounded_net_benefit (lawyerPricing : LawyerPricing)
    (province : String) (currentOffer : Option ℚ)
    (recommendedAmount potentialGap statutoryMinimum : ℚ)
    (customHours customContingencyPercentage customFlatFee customTaxRate : Option ℚ) :
    (∃ o ∈ (analyzeLawyerCosts lawyerPricing province currentOffer recommendedAmount
        potentialGap statutoryMinimum customHours customContingencyPercentage
        customFlatFee customTaxRate).options,
      o.type = OptionType.consultation ∧
      o.netBenefit = some (if 0 < potentialGap then jsRound (potentialGap - o.totalCost)
        else jsRound (-o.totalCost))) ∧
    ((∃ o ∈ (analyzeLawyerCosts lawyerPricing province currentOffer recommendedAmount
        potentialGap statutoryMinimum customHours customContingencyPercentage
        customFlatFee customTaxRate).options, o.type = OptionType.hourly) ↔
      0 < potentialGap) ∧
    ((∃ o ∈ (analyzeLawyerCosts lawyerPricing province currentOffer recommendedAmount
        potentialGap statutoryMinimum customHours customContingencyPercentage
        customFlatFee customTaxRate).options, o.type = OptionType.flat) ↔
      0 < potentialGap ∧ lawyerPricing.flatFeeRange.isSome) ∧
    ((∃ o ∈ (analyzeLawyerCosts lawyerPricing province currentOffer recommendedAmount
        potentialGap statutoryMinimum customHours customContingencyPercentage
        customFlatFee customTaxRate).options, o.type = OptionType.contingency) ↔
      0 < potentialGap ∧ lawyerPricing.contingencyFee.isSome) := by
  refine ⟨?_, ?_, ?_, ?_⟩
  · refine ⟨consultationOption lawyerPricing
      (customTaxRate.getD (getTaxRate province)) potentialGap, ?_, rfl, rfl⟩
    simp [analyzeLawyerCosts]
  · by_cases hg : 0 < potentialGap <;>
      rcases hfr : lawyerPricing.flatFeeRange with _ | fr <;>
        rcases hcf : lawyerPricing.contingencyFee with _ | cf <;>
          simp [analyzeLawyerCosts, hg, hfr, hcf, consultationOption_type,
            hourlyOption_type, flatOption_type, contingencyOption_type]
  · by_cases hg : 0 < potentialGap <;>
      rcases hfr : lawyerPricing.flatFeeRange with _ | fr <;>
        rcases hcf : lawyerPricing.contingencyFee with _ | cf <;>
          simp [analyzeLawyerCosts, hg, hfr, hcf, consultationOption_type,
            hourlyOption_type, flatOption_type, contingencyOption_type]
  · by_cases hg : 0 < potentialGap <;>
      rcases hfr : lawyerPricing.flatFeeRange with _ | fr <;>
        rcases hcf : lawyerPricing.contingencyFee with _ | cf <;>
          simp [analyzeLawyerCosts, hg, hfr, hcf, consultationOption_type,
            hourlyOption_type, flatOption_type, contingencyOption_type]

theorem jsAbs_sub_comm (a b : ℚ) : jsAbs (a - b) = jsAbs (b - a) := by
  rw [jsAbs_eq, jsAbs_eq, abs_sub_comm]

theorem jsCompare_noncontingency_vs_contingency (gap : ℚ) (a b : LawyerOption)
    (hab : jsAbs (a.netBenefit.getD 0 - b.netBenefit.getD 0) < gap * 0.1)
    (ha : a.type ≠ OptionType.contingency) (hb : b.type = OptionType.contingency) :
    jsCompare gap a b = 1 := by
  unfold jsCompare
  rw [if_pos (by rw [jsAbs_sub_comm]; exact hab)]
  rw [if_neg (by simp [ha, hb])]
  rw [if_pos ⟨hb, ha⟩]

/-- Claim C5 (counterexample): a call in which the contingency option and the
flat option are a near-tie (net-benefit difference below 10 percent of the
gap) but the hourly option is far ahead; the claim says the contingency option
is selected, yet the code recommends the hourly option. -/
theorem C5_counterexample :
    (∃ c ∈ (analyzeLawyerCosts pricingFullTiers "AB" none 0 100000 0
        (some 0) (some 50) (some 50000) (some 0)).options,
      c.type = OptionType.contingency ∧
      ∃ f ∈ (analyzeLawyerCosts pricingFullTiers "AB" none 0 100000 0
          (some 0) (some 50) (some 50000) (some 0)).options,
        f.type = OptionType.flat ∧
        jsAbs (f.netBenefit.getD 0 - c.netBenefit.getD 0) < 100000 * 0.1) ∧
    (analyzeLawyerCosts pricingFullTiers "AB" none 0 100000 0
        (some 0) (some 50) (some 50000) (some 0)).recommended.type ≠
      OptionType.contingency := by
  constructor
  · refine ⟨contingencyOption ⟨10⟩ 0 100000 (some 50), ?_, rfl,
      flatOption ⟨15000, 20000⟩ 0 100000 (some 50000), ?_, rfl, ?_⟩
    · norm_num [analyzeLawyerCosts, pricingFullTiers]
    · norm_num [analyzeLawyerCosts, pricingFullTiers]
    · norm_num [flatOption, contingencyOption, jsAbs, jsRound]
  · have ht : (analyzeLawyerCosts pricingFullTiers "AB" none 0 100000 0
        (some 0) (some 50) (some 50000) (some 0)).recommended.type =
          OptionType.hourly := by
      norm_num [analyzeLawyerCosts, pricingFullTiers, consultationOption, hourlyOption,
        flatOption, contingencyOption, jsCompare, sortByCmp, insertByCmp, jsAbs, jsRound,
        determineComplexity, estimateHours, List.filter_cons,
        optionType_hourly_eq_consultation, optionType_flat_eq_consultation,
        optionType_contingency_eq_consultation, optionType_hourly_eq_contingency,
        optionType_flat_eq_contingency, optionType_consultation_eq_contingency]
    rw [ht]
    simp

/-- Claim C5 (amended): the contingency preference is applied pairwise inside
the sort comparator, not globally. When the contingency tier is defined and
the contingency option is within 10 percent of potentialGap of the hourly
option and of the flat option (when generated), the contingency option is
recommended even if its net benefit is nominally lower; a candidate beating
contingency by at least 10 percent of the gap is recommended instead. When no
near-tie involves the contingency option the candidates order purely by net
benefit descending. -/
theorem C5_amended_pairwise_tie_break (lawyerPricing : LawyerPricing)
    (province : String) (currentOffer : Option ℚ)
    (recommendedAmount statutoryMinimum potentialGap : ℚ)
    (customHours customContingencyPercentage customFlatFee customTaxRate : Option ℚ)
    (cf : ContingencyFeeSpec)
    (hgap : 0 < potentialGap)
    (hcf : lawyerPricing.contingencyFee = some cf)
    (hH : jsAbs ((hourlyOption lawyerPricing (customTaxRate.getD (getTaxRate province))
        potentialGap customHours).netBenefit.getD 0 -
      (contingencyOption cf (customTaxRate.getD (getTaxRate province)) potentialGap
        customContingencyPercentage).netBenefit.getD 0) < potentialGap * 0.1)
    (hF : ∀ fr, lawyerPricing.flatFeeRange = some fr →
      jsAbs ((flatOption fr (customTaxRate.getD (getTaxRate province)) potentialGap
          customFlatFee).netBenefit.getD 0 -
        (contingencyOption cf (customTaxRate.getD (getTaxRate province)) potentialGap
          customContingencyPercentage).netBenefit.getD 0) < potentialGap * 0.1) :
    (analyzeLawyerCosts lawyerPricing province currentOffer recommendedAmount
      potentialGap statutoryMinimum customHours customContingencyPercentage
      customFlatFee customTaxRate).recommended.type = OptionType.contingency := by
  rcases hfr : lawyerPricing.flatFeeRange with _ | fr
  · have hcmpH : jsCompare potentialGap
        (hourlyOption lawyerPricing (customTaxRate.getD (getTaxRate province))
          potentialGap customHours)
        (contingencyOption cf (customTaxRate.getD (getTaxRate province)) potentialGap
          customContingencyPercentage) = 1 :=
      jsCompare_noncontingency_vs_contingency _ _ _ hH
        (by rw [hourlyOption_type]; simp) rfl
    simp [analyzeLawyerCosts, hcf, hfr, if_pos hgap, sortByCmp, insertByCmp, hcmpH,
      consultationOption_type, hourlyOption_type, contingencyOption_type, zero_lt_one]
  · have hcmpH : jsCompare potentialGap
        (hourlyOption lawyerPricing (customTaxRate.getD (getTaxRate province))
          potentialGap customHours)
        (contingencyOption cf (customTaxRate.getD (getTaxRate province)) potentialGap
          customContingencyPercentage) = 1 :=
      jsCompare_noncontingency_vs_contingency _ _ _ hH
        (by rw [hourlyOption_type]; simp) rfl
    have hcmpF : jsCompare potentialGap
        (flatOption fr (customTaxRate.getD (getTaxRate province)) potentialGap
          customFlatFee)
        (contingencyOption cf (customTaxRate.getD (getTaxRate province)) potentialGap
          customContingencyPercentage) = 1 :=
      jsCompare_noncontingency_vs_contingency _ _ _ (hF fr hfr)
        (by rw [flatOption_type]; simp) rfl
    simp [analyzeLawyerCosts, hcf, hfr, if_pos hgap, sortByCmp, insertByCmp, hcmpH,
      hcmpF, consultationOption_type, hourlyOption_type, flatOption_type,
      contingencyOption_type, zero_lt_one]

/-- Witness for C5_amended_pairwise_tie_break at a concrete near-tie call
(hourly net 91000, contingency net 90000, flat net 85000, gap 100000). -/
theorem C5_amended_witness :
    (0:ℚ) < 100000 ∧
    (analyzeLawyerCosts pricingFullTiers "AB" none 0 100000 0
      (some 20) (some 10) none (some 0)).recommended.type = OptionType.contingency :=
  ⟨by norm_num,
   C5_amended_pairwise_tie_break pricingFullTiers "AB" none 0 0 100000
     (some 20) (some 10) none (some 0) ⟨10⟩ (by norm_num) rfl
     (by norm_num [hourlyOption, contingencyOption, jsAbs, jsRound, getTaxRate,
        determineComplexity, estimateHours, pricingFullTiers])
     (fun fr hfr => by
       rw [show pricingFullTiers.flatFeeRange = some ⟨15000, 20000⟩ from rfl] at hfr
       cases hfr
       norm_num [flatOption, contingencyOption, jsAbs, jsRound, getTaxRate,
         pricingFullTiers])⟩
